import Mathlib

/-!
Verification of the training orchestrator of `Lidar-Annotation-is-All-You-Need`
(`scripts/train.py` together with `lib/config/waymo.py`).

The Python source is shallowly embedded: the yacs configuration tree becomes a
Lean structure with the default values of `lib/config/waymo.py`; the dataset
mixing loop of `train.py` (lines 180-193) becomes `mixer`; the epoch loop
(lines 237-278) becomes the event trace `trainTrace`; floating point numbers
are modelled by `ℚ` (exact arithmetic) except the cosine learning-rate factor,
which is modelled over `ℝ`.
-/

namespace LidarAnnot

/-- Cudnn-related parameters of the configuration (`_C.CUDNN`). -/
structure CudnnCfg where
  BENCHMARK : Bool
  DETERMINISTIC : Bool
  ENABLED : Bool
deriving Repr, DecidableEq

/-- Model parameters of the configuration (`_C.MODEL`). -/
structure ModelCfg where
  NAME : String
  IMAGE_SIZE : List Int
  SEGM_CLASSES : String
deriving Repr, DecidableEq

/-- Loss parameters of the configuration (`_C.LOSS`). -/
structure LossCfg where
  LAMBDA : ℚ
  SEG_POS_WEIGHT : ℚ
  DA_SEG_GAIN : ℚ
  MASKED : Bool
deriving Repr, DecidableEq

/-- Dataset parameters of the configuration (`_C.DATASET`). -/
structure DatasetCfg where
  DATASET : String
  PATH : String
  VAL_PATH : String
  DATASETS_FRACTIONS : List ℚ
  DATA_FORMAT : String
  AUTO_SHAPE : Bool
  FILL_BETWEEN_POINTS : Bool
  USE_DET_CACHE : Bool
  WAYMO_DILATION : Bool
  MASKS_ONLY : Bool
  LIDAR_DATA_ONLY : Bool
  from_img_3D : Int
  to_img_3D : Int
  from_img_2D : Int
  to_img_2D : Int
  FLIP : Bool
  SCALE_FACTOR : ℚ
  ROT_FACTOR : ℚ
  TRANSLATE : ℚ
  SHEAR : ℚ
  COLOR_RGB : Bool
  HSV_H : ℚ
  HSV_S : ℚ
  HSV_V : ℚ
deriving Repr, DecidableEq

/-- Training parameters of the configuration (`_C.TRAIN`). -/
structure TrainCfg where
  LR0 : ℚ
  LRF : ℚ
  WARMUP_EPOCHS : ℚ
  WARMUP_BIASE_LR : ℚ
  WARMUP_MOMENTUM : ℚ
  OPTIMIZER : String
  MOMENTUM : ℚ
  WD : ℚ
  NESTEROV : Bool
  GAMMA1 : ℚ
  GAMMA2 : ℚ
  BEGIN_EPOCH : Int
  END_EPOCH : Int
  VAL_FREQ : Int
  BATCH_SIZE : Int
  SHUFFLE : Bool
  SAVE_LOCALLY_PER_BATCH : Bool
deriving Repr, DecidableEq

/-- Testing parameters of the configuration (`_C.TEST`). -/
structure TestCfg where
  BATCH_SIZE : Int
  PLOTS : Bool
deriving Repr, DecidableEq

/-- The full configuration tree `_C` of `lib/config/waymo.py`. -/
structure Config where
  LOG_DIR : String
  GPUS : List Int
  WORKERS : Int
  PIN_MEMORY : Bool
  PRINT_FREQ : Int
  DEBUG : Bool
  DEBUG_N_BATCHES : Int
  CLEARML_LOGGING : Bool
  num_seg_class : Int
  CUDNN : CudnnCfg
  MODEL : ModelCfg
  LOSS : LossCfg
  DATASET : DatasetCfg
  TRAIN : TrainCfg
  TEST : TestCfg
  inference_visualization : Bool
  save_video : Bool
  save_gt : Bool
  vis_train_gt : Bool
deriving Repr, DecidableEq

/-- Default configuration values of `lib/config/waymo.py`. -/
def cfg_waymo : Config :=
  { LOG_DIR := "runs/"
    GPUS := [0]
    WORKERS := 4
    PIN_MEMORY := false
    PRINT_FREQ := 20
    DEBUG := false
    DEBUG_N_BATCHES := 0
    CLEARML_LOGGING := false
    num_seg_class := 2
    CUDNN := { BENCHMARK := true, DETERMINISTIC := false, ENABLED := true }
    MODEL :=
      { NAME := ""
        IMAGE_SIZE := [640, 640]
        SEGM_CLASSES := "road" }
    LOSS :=
      { LAMBDA := 1
        SEG_POS_WEIGHT := 1
        DA_SEG_GAIN := 1
        MASKED := true }
    DATASET :=
      { DATASET := "waymo_PSPNET_exps"
        PATH := "/mnt/large/data/waymo_2d_3d_segm"
        VAL_PATH := "/mnt/large/data/waymo_2d_3d_segm"
        DATASETS_FRACTIONS := [1, 1]
        DATA_FORMAT := "jpg"
        AUTO_SHAPE := false
        FILL_BETWEEN_POINTS := false
        USE_DET_CACHE := true
        WAYMO_DILATION := false
        MASKS_ONLY := false
        LIDAR_DATA_ONLY := false
        from_img_3D := 0
        to_img_3D := 926
        from_img_2D := 926
        to_img_2D := 1852
        FLIP := true
        SCALE_FACTOR := 0.25
        ROT_FACTOR := 10
        TRANSLATE := 0.1
        SHEAR := 0
        COLOR_RGB := false
        HSV_H := 0.015
        HSV_S := 0.7
        HSV_V := 0.4 }
    TRAIN :=
      { LR0 := 0.001
        LRF := 0.5
        WARMUP_EPOCHS := 3
        WARMUP_BIASE_LR := 0.1
        WARMUP_MOMENTUM := 0.8
        OPTIMIZER := "adam"
        MOMENTUM := 0.937
        WD := 0.0005
        NESTEROV := true
        GAMMA1 := 0.99
        GAMMA2 := 0
        BEGIN_EPOCH := 0
        END_EPOCH := 200
        VAL_FREQ := 1
        BATCH_SIZE := 6
        SHUFFLE := true
        SAVE_LOCALLY_PER_BATCH := true }
    TEST := { BATCH_SIZE := 1, PLOTS := true }
    inference_visualization := false
    save_video := false
    save_gt := false
    vis_train_gt := true }

/-- Command-line arguments of `scripts/train.py` (`parse_args`). -/
structure Args where
  logDir : String
  load_from : Option String
  dataset_type : String
deriving Repr, DecidableEq

/-- Embedding of `update_config` of `lib/config/waymo.py`: under Python
truthiness an empty `--logDir` string is falsy, so `LOG_DIR` is overwritten
exactly when `args.logDir` is non-empty. -/
def update_config (cfg : Config) (args : Args) : Config :=
  if args.logDir ≠ "" then { cfg with LOG_DIR := args.logDir } else cfg

/-- Embedding of the dataset-type dispatch of `train.py` lines 62-67:
`kitti` selects the KITTI-360 configuration, `waymo` the Waymo one, and any
other value raises `ValueError("Unsupported dataset type")`. The KITTI
configuration object lives in `lib/config/kitti_360.py`, which is outside the
provided sources, so it is passed as a parameter. -/
def chooseCfg (dataset_type : String) (cfgKitti cfgWaymo : Config) :
    Except String Config :=
  if dataset_type = "kitti" then .ok cfgKitti
  else if dataset_type = "waymo" then .ok cfgWaymo
  else .error "Unsupported dataset type"

/-- The configuration-selection head of `main` (`train.py` lines 60-69): the
dataset-type dispatch runs first and, on success, `update_config` is applied.
Everything else in `main` (logger, model, optimizer, datasets) is created only
after this returns `.ok`. -/
def mainSetup (args : Args) (cfgKitti cfgWaymo : Config) :
    Except String Config :=
  match chooseCfg args.dataset_type cfgKitti cfgWaymo with
  | .error err => .error err
  | .ok cfg => .ok (update_config cfg args)

/-- Python `int()` applied to a float: truncation toward zero (floor for
non-negative values, ceiling for negative ones). -/
def pyInt (q : ℚ) : Int := if 0 ≤ q then ⌊q⌋ else ⌈q⌉

/-- The only exception the mixing loop of `train.py` lines 180-193 can raise:
`datasets_fractions[dataset_index]` with an out-of-range index. -/
inductive MixError where
  | indexError
deriving Repr, DecidableEq

/-- Output of the mixing loop: `dataset_samples_list`, `num_samples`, and the
numpy weight vector `dataset_samples_list / num_samples`. -/
structure MixOut where
  dataset_samples_list : List Int
  num_samples : Int
  weights : List ℚ
deriving Repr, DecidableEq

/-- The accumulation loop of `train.py` lines 182-191: for each dataset (of
known length) read the fraction at the same position — an `IndexError` if the
fraction list is shorter — and record `int(fraction * len(dataset))`. -/
def collectSamples (lengths : List Nat) (fractions : List ℚ) :
    Except MixError (List Int) :=
  match lengths, fractions with
  | [], _ => .ok []
  | _ :: _, [] => .error .indexError
  | L :: ls, f :: fs =>
    match collectSamples ls fs with
    | .error err => .error err
    | .ok ns => .ok (pyInt (f * L) :: ns)

/-- The fractional mixer of `train.py` lines 180-193: per-dataset budgets,
their total `num_samples`, and `weights = np.array(budgets) / num_samples`.
The code performs no validation: when `num_samples = 0` numpy emits a NaN
vector with a warning instead of raising (modelled by `ℚ` division, where
division by zero yields `0`). -/
def mixer (lengths : List Nat) (fractions : List ℚ) :
    Except MixError MixOut :=
  match collectSamples lengths fractions with
  | .error err => .error err
  | .ok samples =>
    .ok { dataset_samples_list := samples
          num_samples := samples.sum
          weights := samples.map (fun s : Int => (s : ℚ) / (samples.sum : ℚ)) }

/-- The two training dataset classes instantiated by `train.py`. -/
inductive DatasetKind where
  | segm2D
  | segm3D
deriving Repr, DecidableEq

/-- The dataset-selection branch of `train.py` lines 114-178: `MASKS_ONLY`
first (a single 2D dataset with fraction list `[1.]`), then
`LIDAR_DATA_ONLY` (a single reprojected-3D dataset with `[1.]`), otherwise
both datasets with `cfg.DATASET.DATASETS_FRACTIONS`. -/
def selectTrainDatasets (cfg : Config) : List DatasetKind × List ℚ :=
  if cfg.DATASET.MASKS_ONLY then ([.segm2D], [1])
  else if cfg.DATASET.LIDAR_DATA_ONLY then ([.segm3D], [1])
  else ([.segm3D, .segm2D], cfg.DATASET.DATASETS_FRACTIONS)

/-- Model parameters as an abstract state (`model.state_dict()`). -/
structure ModelParams where
  params : List ℚ
deriving Repr, DecidableEq

/-- Optimizer state as an abstract state (`optimizer.state_dict()`). -/
structure OptimState where
  st : List ℚ
deriving Repr, DecidableEq

/-- Epoch-level mutable state of the training controller: the epoch counter
together with the two global step counters of `writer_dict`
(`train_global_steps` and `valid_global_steps`, `train.py` lines 79-83). -/
structure EpochState where
  epoch_number : Int
  global_train_step : Nat
  global_valid_step : Nat
deriving Repr, DecidableEq

/-- A checkpoint file as read back by `--load_from`: `train.py` line 101
accesses only its `state_dict` entry, but the file written by
`save_checkpoint` also carries `epoch`, `name` and `optimizer`. -/
structure LoadedCkpt where
  epoch : Int
  name : String
  state_dict : ModelParams
  optimizer : OptimState
deriving Repr, DecidableEq

/-- Initialization of the controller state by `main` (`train.py` lines 79-83
and 109): `writer_dict` counters start at `0` and the loop base is
`cfg.TRAIN.BEGIN_EPOCH`, in both cases regardless of `--load_from`; only the
model weights come from the checkpoint when one is supplied (line 101). -/
def mainInit (cfg : Config) (pretrained : ModelParams)
    (load_from : Option LoadedCkpt) : EpochState × ModelParams :=
  ({ epoch_number := cfg.TRAIN.BEGIN_EPOCH
     global_train_step := 0
     global_valid_step := 0 },
   match load_from with
   | some c => c.state_dict
   | none => pretrained)

/-- First epoch executed by the loop `for epoch in range(begin_epoch+1,
cfg.TRAIN.END_EPOCH+1)` at `train.py` line 237. -/
def firstTrainedEpoch (cfg : Config) : Int := cfg.TRAIN.BEGIN_EPOCH + 1

/-- The observable actions of one run of the epoch loop, in order. -/
inductive Event where
  | trainPass (epoch : Int)
  | schedStep (epoch : Int)
  | validationPass (epoch : Int)
  | checkpointSave (epoch : Int) (name : String) (state_dict : ModelParams)
      (optim : OptimState) (filename : String)
  | finalStateSave (state_dict : ModelParams)
deriving Repr, DecidableEq

/-- Recognizes a learning-rate scheduler step event. -/
def isSchedStep : Event → Bool
  | .schedStep _ => true
  | _ => false

/-- Recognizes the `final_state.pth` save event. -/
def isFinalSave : Event → Bool
  | .finalStateSave _ => true
  | _ => false

/-- Name of the epoch-tagged checkpoint file (`train.py` line 262). -/
def checkpointFilename (e : Int) : String :=
  "epoch-" ++ toString e ++ ".pth"

/-- The epochs visited by `range(begin_epoch+1, end_epoch+1)`. -/
def epochRange (b e : Int) : List Int :=
  (List.range (e - b).toNat).map (fun i : ℕ => b + 1 + (i : Int))

/-- Events of a single iteration of the epoch loop (`train.py` lines
237-271): a training pass, one scheduler step, a validation pass when
`epoch % VAL_FREQ == 0 or epoch == END_EPOCH`, and a checkpoint save when
`epoch % 5 == 0` passing `epoch`, `cfg.MODEL.NAME`, the current model and
optimizer state, under the file name `epoch-{epoch}.pth`. The model and
optimizer state reached after epoch `e` are abstracted by `mp e` and
`os e`. -/
def epochEvents (cfg : Config) (mp : Int → ModelParams)
    (os : Int → OptimState) (e : Int) : List Event :=
  [.trainPass e, .schedStep e]
  ++ (if e % cfg.TRAIN.VAL_FREQ = 0 ∨ e = cfg.TRAIN.END_EPOCH
      then [.validationPass e] else [])
  ++ (if e % 5 = 0
      then [.checkpointSave e cfg.MODEL.NAME (mp e) (os e)
              (checkpointFilename e)]
      else [])

/-- The complete event trace of `main`'s training section (`train.py` lines
237-278): every epoch of `range(begin_epoch+1, end_epoch+1)` in order,
followed unconditionally by the `final_state.pth` save of the model
parameters alone (lines 273-278). -/
def trainTrace (cfg : Config) (mp : Int → ModelParams)
    (os : Int → OptimState) : List Event :=
  ((epochRange cfg.TRAIN.BEGIN_EPOCH cfg.TRAIN.END_EPOCH).flatMap
      (epochEvents cfg mp os))
  ++ [.finalStateSave (mp cfg.TRAIN.END_EPOCH)]

/-- The per-epoch learning-rate factor `lf` of `train.py` lines 106-107. -/
noncomputable def lf (lrf endEpoch x : ℝ) : ℝ :=
  ((1 + Real.cos (x * Real.pi / endEpoch)) / 2) * (1 - lrf) + lrf

/-- The scheduled learning rate: `LambdaLR` multiplies the base rate `lr0`
by `lf x` at scheduler step `x`. -/
noncomputable def lrSched (lr0 lrf endEpoch x : ℝ) : ℝ :=
  lr0 * lf lrf endEpoch x

/-- A yacs configuration node as declared in `lib/config/waymo.py`: its
enumerated keys and whether it was created with `new_allowed=True`. -/
structure ConfigGroup where
  name : String
  keys : List String
  new_allowed : Bool
deriving Repr, DecidableEq

/-- Modelled from the spec: the yacs `CfgNode` merge step (the yacs library is
not part of the provided sources). Loading a key into a group succeeds when
the key is among the group's enumerated keys or the group was created with
`new_allowed=True`; otherwise the key is rejected at load time. -/
def mergeKeyAccepted (g : ConfigGroup) (key : String) : Bool :=
  key ∈ g.keys || g.new_allowed

/-- The `MODEL` group (`waymo.py` line 22): `CN(new_allowed=True)`. -/
def modelGroup : ConfigGroup :=
  { name := "MODEL"
    keys := ["NAME", "IMAGE_SIZE", "SEGM_CLASSES"]
    new_allowed := true }

/-- The `LOSS` group (`waymo.py` line 28): `CN(new_allowed=True)`. -/
def lossGroup : ConfigGroup :=
  { name := "LOSS"
    keys := ["LAMBDA", "SEG_POS_WEIGHT", "DA_SEG_GAIN", "MASKED"]
    new_allowed := true }

/-- The `DATASET` group (`waymo.py` line 35): `CN(new_allowed=True)`. -/
def datasetGroup : ConfigGroup :=
  { name := "DATASET"
    keys := ["DATASET", "PATH", "VAL_PATH", "DATASETS_FRACTIONS",
             "DATA_FORMAT", "AUTO_SHAPE", "FILL_BETWEEN_POINTS",
             "USE_DET_CACHE", "WAYMO_DILATION", "MASKS_ONLY",
             "LIDAR_DATA_ONLY", "from_img_3D", "to_img_3D", "from_img_2D",
             "to_img_2D", "FLIP", "SCALE_FACTOR", "ROT_FACTOR", "TRANSLATE",
             "SHEAR", "COLOR_RGB", "HSV_H", "HSV_S", "HSV_V"]
    new_allowed := true }

/-- The `TRAIN` group (`waymo.py` line 66): `CN(new_allowed=True)`. -/
def trainGroup : ConfigGroup :=
  { name := "TRAIN"
    keys := ["LR0", "LRF", "WARMUP_EPOCHS", "WARMUP_BIASE_LR",
             "WARMUP_MOMENTUM", "OPTIMIZER", "MOMENTUM", "WD", "NESTEROV",
             "GAMMA1", "GAMMA2", "BEGIN_EPOCH", "END_EPOCH", "VAL_FREQ",
             "BATCH_SIZE", "SHUFFLE", "SAVE_LOCALLY_PER_BATCH"]
    new_allowed := true }

/-- The `TEST` group (`waymo.py` line 86): `CN(new_allowed=True)`. -/
def testGroup : ConfigGroup :=
  { name := "TEST"
    keys := ["BATCH_SIZE", "PLOTS"]
    new_allowed := true }

/-- The `CUDNN` group (`waymo.py` line 16): a plain `CN()`, so closed. -/
def cudnnGroup : ConfigGroup :=
  { name := "CUDNN"
    keys := ["BENCHMARK", "DETERMINISTIC", "ENABLED"]
    new_allowed := false }

/-- The five named configuration groups of the external interface. -/
def namedGroups : List ConfigGroup :=
  [modelGroup, lossGroup, datasetGroup, trainGroup, testGroup]

lemma pyInt_of_nonneg {q : ℚ} (h : 0 ≤ q) : pyInt q = ⌊q⌋ := by
  simp [pyInt, h]

lemma mem_epochRange {b e x : Int} : x ∈ epochRange b e ↔ b < x ∧ x ≤ e := by
  simp only [epochRange, List.mem_map, List.mem_range]
  constructor
  · rintro ⟨i, hi, rfl⟩
    omega
  · rintro ⟨h1, h2⟩
    exact ⟨(x - b - 1).toNat, by omega, by omega⟩

lemma length_epochRange (b e : Int) :
    (epochRange b e).length = (e - b).toNat := by
  simp [epochRange]

lemma epochRange_eq_nil {b e : Int} (h : e ≤ b) : epochRange b e = [] := by
  simp only [epochRange, List.map_eq_nil_iff, List.range_eq_nil]
  omega

lemma collectSamples_ok_of_le :
    ∀ (lengths : List Nat) (fractions : List ℚ),
      lengths.length ≤ fractions.length →
      ∃ l, collectSamples lengths fractions = .ok l
  | [], _, _ => ⟨[], rfl⟩
  | _ :: _, [], h => by simp at h
  | L :: ls, f :: fs, h => by
      obtain ⟨l, hl⟩ := collectSamples_ok_of_le ls fs (by simpa using h)
      exact ⟨pyInt (f * L) :: l, by simp [collectSamples, hl]⟩

lemma collectSamples_err :
    ∀ (lengths : List Nat) (fractions : List ℚ),
      fractions.length < lengths.length →
      collectSamples lengths fractions = .error .indexError
  | [], _, h => by simp at h
  | _ :: _, [], _ => rfl
  | L :: ls, f :: fs, h => by
      have ih := collectSamples_err ls fs (by simpa using h)
      simp [collectSamples, ih]

lemma collectSamples_eq_zipWith :
    ∀ (lengths : List Nat) (fractions : List ℚ),
      fractions.length = lengths.length →
      (∀ f ∈ fractions, 0 ≤ f) →
      collectSamples lengths fractions =
        .ok (List.zipWith (fun (f : ℚ) (L : ℕ) => ⌊f * (L : ℚ)⌋)
              fractions lengths)
  | [], [], _, _ => rfl
  | [], _ :: _, h, _ => by simp at h
  | _ :: _, [], h, _ => by simp at h
  | L :: ls, f :: fs, h, hf => by
      have ih := collectSamples_eq_zipWith ls fs (by simpa using h)
        (fun g hg => hf g (List.mem_cons_of_mem _ hg))
      have hq : (0 : ℚ) ≤ f * L :=
        mul_nonneg (hf f (List.mem_cons_self f fs)) (by positivity)
      simp [collectSamples, ih, pyInt_of_nonneg hq]

lemma sum_map_div (l : List Int) (c : ℚ) :
    (l.map (fun s : Int => (s : ℚ) / c)).sum = ((l.sum : Int) : ℚ) / c := by
  induction l with
  | nil => simp
  | cons x xs ih => simp [ih, add_div]

lemma ckpt_mem_epochEvents {cfg : Config} {mp : Int → ModelParams}
    {os : Int → OptimState} {e a : Int} {n : String} {sd : ModelParams}
    {op : OptimState} {fn : String} :
    Event.checkpointSave a n sd op fn ∈ epochEvents cfg mp os e ↔
      (a = e ∧ e % 5 = 0 ∧ n = cfg.MODEL.NAME ∧ sd = mp e ∧ op = os e ∧
       fn = checkpointFilename e) := by
  by_cases hv : e % cfg.TRAIN.VAL_FREQ = 0 ∨ e = cfg.TRAIN.END_EPOCH <;>
    by_cases hc : e % 5 = 0 <;>
      simp [epochEvents, hv, hc, eq_comm]

lemma finalSave_not_mem_epochEvents {cfg : Config} {mp : Int → ModelParams}
    {os : Int → OptimState} {e : Int} {sd : ModelParams} :
    Event.finalStateSave sd ∉ epochEvents cfg mp os e := by
  by_cases hv : e % cfg.TRAIN.VAL_FREQ = 0 ∨ e = cfg.TRAIN.END_EPOCH <;>
    by_cases hc : e % 5 = 0 <;>
      simp [epochEvents, hv, hc]

lemma ckpt_mem_trace {cfg : Config} {mp : Int → ModelParams}
    {os : Int → OptimState} {a : Int} {n : String} {sd : ModelParams}
    {op : OptimState} {fn : String} :
    Event.checkpointSave a n sd op fn ∈ trainTrace cfg mp os ↔
      (cfg.TRAIN.BEGIN_EPOCH < a ∧ a ≤ cfg.TRAIN.END_EPOCH ∧ a % 5 = 0 ∧
       n = cfg.MODEL.NAME ∧ sd = mp a ∧ op = os a ∧
       fn = checkpointFilename a) := by
  simp only [trainTrace, List.mem_append, List.mem_flatMap,
    List.mem_singleton]
  constructor
  · rintro (⟨x, hx, hmem⟩ | h)
    · obtain ⟨rfl, h5, hn, hsd, hop, hfn⟩ := ckpt_mem_epochEvents.mp hmem
      obtain ⟨hb, he⟩ := mem_epochRange.mp hx
      exact ⟨hb, he, h5, hn, hsd, hop, hfn⟩
    · cases h
  · rintro ⟨hb, he, h5, hn, hsd, hop, hfn⟩
    exact Or.inl ⟨a, mem_epochRange.mpr ⟨hb, he⟩,
      ckpt_mem_epochEvents.mpr ⟨rfl, h5, hn, hsd, hop, hfn⟩⟩

lemma countP_schedStep_epochEvents {cfg : Config} {mp : Int → ModelParams}
    {os : Int → OptimState} {e : Int} :
    (epochEvents cfg mp os e).countP isSchedStep = 1 := by
  by_cases hv : e % cfg.TRAIN.VAL_FREQ = 0 ∨ e = cfg.TRAIN.END_EPOCH <;>
    by_cases hc : e % 5 = 0 <;>
      simp [epochEvents, hv, hc, List.countP_append, List.countP_cons,
        isSchedStep]

lemma countP_schedStep_trace {cfg : Config} {mp : Int → ModelParams}
    {os : Int → OptimState} :
    (trainTrace cfg mp os).countP isSchedStep =
      (cfg.TRAIN.END_EPOCH - cfg.TRAIN.BEGIN_EPOCH).toNat := by
  have h1 : ∀ l : List Int,
      (l.flatMap (epochEvents cfg mp os)).countP isSchedStep = l.length := by
    intro l
    induction l with
    | nil => simp
    | cons x xs ih =>
        simp [List.flatMap_cons, List.countP_append, ih,
          countP_schedStep_epochEvents, Nat.add_comm]
  simp [trainTrace, List.countP_append, h1, length_epochRange, isSchedStep,
    List.countP_cons]

lemma countP_finalSave_trace {cfg : Config} {mp : Int → ModelParams}
    {os : Int → OptimState} :
    (trainTrace cfg mp os).countP isFinalSave = 1 := by
  have h0 : ((epochRange cfg.TRAIN.BEGIN_EPOCH cfg.TRAIN.END_EPOCH).flatMap
      (epochEvents cfg mp os)).countP isFinalSave = 0 := by
    rw [List.countP_eq_zero]
    intro ev hev
    obtain ⟨x, _, hmem⟩ := List.mem_flatMap.mp hev
    cases ev with
    | finalStateSave sd => exact absurd hmem finalSave_not_mem_epochEvents
    | trainPass _ => simp [isFinalSave]
    | schedStep _ => simp [isFinalSave]
    | validationPass _ => simp [isFinalSave]
    | checkpointSave _ _ _ _ _ => simp [isFinalSave]
  simp [trainTrace, List.countP_append, h0, List.countP_cons, isFinalSave]

lemma getLast_trace {cfg : Config} {mp : Int → ModelParams}
    {os : Int → OptimState} :
    (trainTrace cfg mp os).getLast? =
      some (.finalStateSave (mp cfg.TRAIN.END_EPOCH)) := by
  simp [trainTrace, List.getLast?_append]

/-- C1 (counterexample): resuming with `--load_from` a checkpoint written at
epoch 5 does not restore `EpochState`: the controller still starts at
`begin_epoch = 0`, the first trained epoch is `1` and not `5 + 1 = 6`, and
the global train-step counter restarts at `0`. -/
theorem resume_ignores_checkpoint_epoch :
    (mainInit cfg_waymo ⟨[0]⟩
      (some { epoch := 5, name := "", state_dict := ⟨[1]⟩,
              optimizer := ⟨[]⟩ })).1.epoch_number = 0 ∧
    firstTrainedEpoch cfg_waymo = 1 ∧
    firstTrainedEpoch cfg_waymo ≠ (5 : Int) + 1 ∧
    (mainInit cfg_waymo ⟨[0]⟩
      (some { epoch := 5, name := "", state_dict := ⟨[1]⟩,
              optimizer := ⟨[]⟩ })).1.global_train_step = 0 :=
  ⟨rfl, rfl, by decide, rfl⟩

/-- C1 (amended): `--load_from` restores only the model weights; the
controller state is initialized identically with or without a checkpoint —
`epoch_number = begin_epoch`, both global step counters `0` — so a resumed
run restarts at `begin_epoch + 1` rather than at the checkpoint's epoch. -/
theorem mainInit_ignores_load_from :
    ∀ (cfg : Config) (p : ModelParams) (c : LoadedCkpt),
      (mainInit cfg p (some c)).1 = (mainInit cfg p none).1 ∧
      (mainInit cfg p none).1 =
        { epoch_number := cfg.TRAIN.BEGIN_EPOCH, global_train_step := 0,
          global_valid_step := 0 } ∧
      (mainInit cfg p (some c)).2 = c.state_dict ∧
      (mainInit cfg p none).2 = p ∧
      firstTrainedEpoch cfg = cfg.TRAIN.BEGIN_EPOCH + 1 :=
  fun _ _ _ => ⟨rfl, rfl, rfl, rfl, rfl⟩

/-- C2: the mixer computes per-dataset budgets `⌊f_i * L_i⌋`, their total, and
weights `n_i / N` which sum to `1` whenever `N > 0`; on lengths `[1000, 500]`
with fractions `[1, 1/2]` it yields budgets `[1000, 250]`, total `1250` and
weights `[4/5, 1/5]`. -/
theorem mixer_budgets_and_weights :
    (∀ (lengths : List Nat) (fractions : List ℚ),
      fractions.length = lengths.length →
      (∀ f ∈ fractions, 0 < f ∧ f ≤ 1) →
      ∃ out, mixer lengths fractions = .ok out ∧
        out.dataset_samples_list =
          List.zipWith (fun (f : ℚ) (L : ℕ) => ⌊f * (L : ℚ)⌋)
            fractions lengths ∧
        out.num_samples = out.dataset_samples_list.sum ∧
        out.weights = out.dataset_samples_list.map
          (fun s : Int => (s : ℚ) / (out.num_samples : ℚ)) ∧
        (0 < out.num_samples → out.weights.sum = 1)) ∧
    mixer [1000, 500] [1, 1/2] =
      .ok { dataset_samples_list := [1000, 250], num_samples := 1250,
            weights := [4/5, 1/5] } := by
  constructor
  · intro lengths fractions hlen hf
    have hcs := collectSamples_eq_zipWith lengths fractions hlen
      (fun f hf2 => (hf f hf2).1.le)
    refine ⟨{ dataset_samples_list :=
                List.zipWith (fun (f : ℚ) (L : ℕ) => ⌊f * (L : ℚ)⌋)
                  fractions lengths
              num_samples :=
                (List.zipWith (fun (f : ℚ) (L : ℕ) => ⌊f * (L : ℚ)⌋)
                  fractions lengths).sum
              weights :=
                (List.zipWith (fun (f : ℚ) (L : ℕ) => ⌊f * (L : ℚ)⌋)
                  fractions lengths).map
                  (fun s : Int => (s : ℚ) /
                    (((List.zipWith (fun (f : ℚ) (L : ℕ) => ⌊f * (L : ℚ)⌋)
                        fractions lengths).sum : Int) : ℚ)) },
          ?_, rfl, rfl, rfl, ?_⟩
    · simp only [mixer, hcs]
    · intro hpos
      have hsum := sum_map_div
        (List.zipWith (fun (f : ℚ) (L : ℕ) => ⌊f * (L : ℚ)⌋) fractions lengths)
        (((List.zipWith (fun (f : ℚ) (L : ℕ) => ⌊f * (L : ℚ)⌋)
            fractions lengths).sum : Int) : ℚ)
      simp only [hsum]
      exact div_self (by exact_mod_cast hpos.ne')
  · have h1 : collectSamples [1000, 500] [1, 1/2] = .ok [1000, 250] := by
      norm_num [collectSamples, pyInt]
    simp only [mixer, h1]
    norm_num

/-- C2 witness. -/
theorem mixer_budgets_and_weights_witness :
    ∃ out, mixer [4, 2] [1/2, 1] = .ok out ∧
      out.dataset_samples_list =
        List.zipWith (fun (f : ℚ) (L : ℕ) => ⌊f * (L : ℚ)⌋)
          [1/2, 1] [4, 2] ∧
      out.num_samples = out.dataset_samples_list.sum ∧
      out.weights = out.dataset_samples_list.map
        (fun s : Int => (s : ℚ) / (out.num_samples : ℚ)) ∧
      (0 < out.num_samples → out.weights.sum = 1) :=
  mixer_budgets_and_weights.1 [4, 2] [1/2, 1] rfl
    (by
      intro f hf
      simp only [List.mem_cons, List.not_mem_nil, or_false] at hf
      rcases hf with rfl | rfl <;> norm_num)

/-- C3 (counterexample): with two empty datasets (total budget `N = 0`) the
mixer completes without raising any error — numpy merely produces a NaN
weight vector — and with fewer fractions than datasets it raises an
`IndexError` inside the loop, not a `ConfigurationError`. -/
theorem mixer_zero_budget_no_error :
    mixer [0, 0] [1, 1] =
      .ok { dataset_samples_list := [0, 0], num_samples := 0,
            weights := [0, 0] } ∧
    mixer [3, 4] [1] = .error .indexError := by
  constructor
  · have h1 : collectSamples [0, 0] [1, 1] = .ok [0, 0] := by
      norm_num [collectSamples, pyInt]
    simp only [mixer, h1]
    norm_num
  · rfl

/-- C3 (amended): the mixing loop performs no validation: whenever at least
as many fractions as datasets are supplied it succeeds (even with a zero
total budget, where the weight division yields NaN in numpy instead of an
exception), and with fewer fractions than datasets it fails with an
`IndexError`; no `ConfigurationError` is ever raised. -/
theorem mixer_no_validation :
    ∀ (lengths : List Nat) (fractions : List ℚ),
      (lengths.length ≤ fractions.length →
        ∃ out, mixer lengths fractions = .ok out) ∧
      (fractions.length < lengths.length →
        mixer lengths fractions = .error .indexError) := by
  intro lengths fractions
  constructor
  · intro h
    obtain ⟨l, hl⟩ := collectSamples_ok_of_le lengths fractions h
    exact ⟨{ dataset_samples_list := l
             num_samples := l.sum
             weights := l.map (fun s : Int => (s : ℚ) / ((l.sum : Int) : ℚ)) },
           by simp only [mixer, hl]⟩
  · intro h
    simp [mixer, collectSamples_err lengths fractions h]

/-- C3 witness. -/
theorem mixer_no_validation_witness :
    (∃ out, mixer [5] [1, 2] = .ok out) ∧
    mixer [5, 6] [1] = .error .indexError :=
  ⟨(mixer_no_validation [5] [1, 2]).1 (by decide),
   (mixer_no_validation [5, 6] [1]).2 (by decide)⟩

/-- C4: a key outside a group's enumerated keys is rejected at load time
exactly when the group is not marked open for extension; every one of the
five groups `MODEL`, `LOSS`, `DATASET`, `TRAIN`, `TEST` is declared with
`new_allowed=True` in `waymo.py`, so for each of them the exception clause
applies and any key is accepted. -/
theorem config_group_schema :
    (∀ (g : ConfigGroup) (key : String),
      g.new_allowed = false → key ∉ g.keys →
        mergeKeyAccepted g key = false) ∧
    (∀ g ∈ namedGroups, g.new_allowed = true) ∧
    (∀ g ∈ namedGroups, ∀ key, mergeKeyAccepted g key = true) := by
  refine ⟨?_, ?_, ?_⟩
  · intro g key hna hk
    simp [mergeKeyAccepted, hna, hk]
  · intro g hg
    fin_cases hg <;> rfl
  · intro g hg key
    fin_cases hg <;> simp [mergeKeyAccepted, modelGroup, lossGroup,
      datasetGroup, trainGroup, testGroup]

/-- C4 witness. -/
theorem config_group_schema_witness :
    cudnnGroup.new_allowed = false ∧
    mergeKeyAccepted cudnnGroup "FOO" = false ∧
    modelGroup ∈ namedGroups ∧
    mergeKeyAccepted modelGroup "ANY_NEW_KEY" = true :=
  ⟨rfl,
   config_group_schema.1 cudnnGroup "FOO" rfl (by decide),
   List.mem_cons_self modelGroup _,
   config_group_schema.2.2 modelGroup (List.mem_cons_self modelGroup _)
     "ANY_NEW_KEY"⟩

/-- C5: any `--dataset_type` other than `waymo` or `kitti` makes the setup
phase fail with `ValueError("Unsupported dataset type")` before any training
state exists (the dispatch is the first statement of `main`), while the two
accepted values proceed to a configuration. -/
theorem invalid_dataset_type_fatal :
    (∀ (args : Args) (k w : Config),
      args.dataset_type ≠ "waymo" → args.dataset_type ≠ "kitti" →
        mainSetup args k w = .error "Unsupported dataset type") ∧
    (∀ (args : Args) (k w : Config),
      args.dataset_type = "waymo" ∨ args.dataset_type = "kitti" →
        ∃ c, mainSetup args k w = .ok c) := by
  constructor
  · intro args k w hw hk
    simp [mainSetup, chooseCfg, hw, hk]
  · rintro args k w (h | h) <;>
      simp [mainSetup, chooseCfg, h]

/-- C5 witness. -/
theorem invalid_dataset_type_fatal_witness :
    mainSetup { logDir := "runs/", load_from := none, dataset_type := "bdd" }
      cfg_waymo cfg_waymo = .error "Unsupported dataset type" ∧
    (∃ c, mainSetup
      { logDir := "runs/", load_from := none, dataset_type := "waymo" }
      cfg_waymo cfg_waymo = .ok c) :=
  ⟨invalid_dataset_type_fatal.1
      { logDir := "runs/", load_from := none, dataset_type := "bdd" }
      cfg_waymo cfg_waymo (by decide) (by decide),
   invalid_dataset_type_fatal.2
      { logDir := "runs/", load_from := none, dataset_type := "waymo" }
      cfg_waymo cfg_waymo (Or.inl rfl)⟩

/-- C6: the learning-rate factor is the cosine schedule of `train.py` lines
106-108 — `lr(0) = lr0` and `lr(end_epoch) = lr0 * lrf` — and the scheduler
is stepped exactly once per executed epoch of the loop. -/
theorem cosine_schedule_endpoints :
    (∀ lr0 lrf E : ℝ, E ≠ 0 →
      lrSched lr0 lrf E 0 = lr0 ∧ lrSched lr0 lrf E E = lr0 * lrf) ∧
    (∀ (cfg : Config) (mp : Int → ModelParams) (os : Int → OptimState),
      (trainTrace cfg mp os).countP isSchedStep =
        (cfg.TRAIN.END_EPOCH - cfg.TRAIN.BEGIN_EPOCH).toNat) := by
  constructor
  · intro lr0 lrf E hE
    constructor
    · have h0 : (0 : ℝ) * Real.pi / E = 0 := by
        rw [zero_mul, zero_div]
      simp only [lrSched, lf, h0, Real.cos_zero]
      ring
    · have hπ : E * Real.pi / E = Real.pi := by
        rw [mul_comm, mul_div_assoc, div_self hE, mul_one]
      simp only [lrSched, lf, hπ, Real.cos_pi]
      ring
  · intro cfg mp os
    exact countP_schedStep_trace

/-- C6 witness. -/
theorem cosine_schedule_endpoints_witness :
    lrSched 0.001 0.5 200 0 = 0.001 ∧
    lrSched 0.001 0.5 200 200 = 0.001 * 0.5 :=
  cosine_schedule_endpoints.1 0.001 0.5 200 (by norm_num)

/-- C7: in a run with `begin_epoch = 0` and `end_epoch = 200`, an
epoch-tagged checkpoint — named `epoch-{e}.pth` and carrying the epoch, the
model name, the model parameters and the optimizer state — occurs in the
trace exactly for the epochs `{5, 10, ..., 200}` (the multiples of 5 in
`1..200`), and exactly one `final_state` artifact, carrying only model
parameters, closes the trace after the last epoch. -/
theorem checkpoint_cadence :
    ∀ (cfg : Config) (mp : Int → ModelParams) (os : Int → OptimState),
      cfg.TRAIN.BEGIN_EPOCH = 0 → cfg.TRAIN.END_EPOCH = 200 →
      (∀ (e : Int) (n : String) (sd : ModelParams) (op : OptimState)
          (fn : String),
        Event.checkpointSave e n sd op fn ∈ trainTrace cfg mp os ↔
          (e % 5 = 0 ∧ 0 < e ∧ e ≤ 200 ∧ n = cfg.MODEL.NAME ∧
           sd = mp e ∧ op = os e ∧ fn = checkpointFilename e)) ∧
      (trainTrace cfg mp os).countP isFinalSave = 1 ∧
      (trainTrace cfg mp os).getLast? =
        some (.finalStateSave (mp 200)) := by
  intro cfg mp os hb he
  refine ⟨?_, countP_finalSave_trace, ?_⟩
  · intro e n sd op fn
    rw [ckpt_mem_trace, hb, he]
    tauto
  · rw [getLast_trace, he]

/-- C7 witness. -/
theorem checkpoint_cadence_witness :
    Event.checkpointSave 5 cfg_waymo.MODEL.NAME ⟨[]⟩ ⟨[]⟩
        (checkpointFilename 5) ∈
      trainTrace cfg_waymo (fun _ => ⟨[]⟩) (fun _ => ⟨[]⟩) ∧
    (trainTrace cfg_waymo (fun _ => ⟨[]⟩) (fun _ => ⟨[]⟩)).countP
      isFinalSave = 1 := by
  have h := checkpoint_cadence cfg_waymo (fun _ => ⟨[]⟩) (fun _ => ⟨[]⟩)
    rfl rfl
  exact ⟨(h.1 5 cfg_waymo.MODEL.NAME ⟨[]⟩ ⟨[]⟩ (checkpointFilename 5)).mpr
    ⟨by decide, by decide, by decide, rfl, rfl, rfl, rfl⟩, h.2.1⟩

/-- C8: `update_config` overwrites `LOG_DIR` exactly when `--logDir` is
non-empty and leaves every other configuration field unchanged; its result
depends on the arguments only through `logDir`, so `--load_from` and
`--dataset_type` never alter any configuration field. -/
theorem update_config_only_log_dir :
    ∀ (cfg : Config) (args : Args),
      ((update_config cfg args).LOG_DIR =
        if args.logDir ≠ "" then args.logDir else cfg.LOG_DIR) ∧
      (update_config cfg args).GPUS = cfg.GPUS ∧
      (update_config cfg args).WORKERS = cfg.WORKERS ∧
      (update_config cfg args).PIN_MEMORY = cfg.PIN_MEMORY ∧
      (update_config cfg args).PRINT_FREQ = cfg.PRINT_FREQ ∧
      (update_config cfg args).DEBUG = cfg.DEBUG ∧
      (update_config cfg args).DEBUG_N_BATCHES = cfg.DEBUG_N_BATCHES ∧
      (update_config cfg args).CLEARML_LOGGING = cfg.CLEARML_LOGGING ∧
      (update_config cfg args).num_seg_class = cfg.num_seg_class ∧
      (update_config cfg args).CUDNN = cfg.CUDNN ∧
      (update_config cfg args).MODEL = cfg.MODEL ∧
      (update_config cfg args).LOSS = cfg.LOSS ∧
      (update_config cfg args).DATASET = cfg.DATASET ∧
      (update_config cfg args).TRAIN = cfg.TRAIN ∧
      (update_config cfg args).TEST = cfg.TEST ∧
      (update_config cfg args).inference_visualization =
        cfg.inference_visualization ∧
      (update_config cfg args).save_video = cfg.save_video ∧
      (update_config cfg args).save_gt = cfg.save_gt ∧
      (update_config cfg args).vis_train_gt = cfg.vis_train_gt ∧
      (∀ args2 : Args, args2.logDir = args.logDir →
        update_config cfg args2 = update_config cfg args) := by
  intro cfg args
  by_cases h : args.logDir = "" <;>
    simp [update_config, h] <;>
    exact fun args2 h2 => by simp [update_config, h2, h]

/-- C8 witness. -/
theorem update_config_only_log_dir_witness :
    (update_config cfg_waymo
      { logDir := "exp/", load_from := some "ck.pth",
        dataset_type := "kitti" }).LOG_DIR = "exp/" ∧
    (update_config cfg_waymo
      { logDir := "exp/", load_from := some "ck.pth",
        dataset_type := "kitti" }).TRAIN = cfg_waymo.TRAIN ∧
    update_config cfg_waymo
      { logDir := "exp/", load_from := none, dataset_type := "waymo" } =
    update_config cfg_waymo
      { logDir := "exp/", load_from := some "ck.pth",
        dataset_type := "kitti" } := by
  have h := update_config_only_log_dir cfg_waymo
    { logDir := "exp/", load_from := some "ck.pth",
      dataset_type := "kitti" }
  refine ⟨?_, h.2.2.2.2.2.2.2.2.2.2.2.2.2.1, ?_⟩
  · rw [h.1]
    rfl
  · exact (h.2.2.2.2.2.2.2.2.2.2.2.2.2.2.2.2.2.2.2
      { logDir := "exp/", load_from := none, dataset_type := "waymo" } rfl)

/-- C9: `MASKS_ONLY` takes precedence over `LIDAR_DATA_ONLY` — when it is
set, training uses the single 2D-masks dataset with fraction list `[1]`
whatever the lidar flag holds; `LIDAR_DATA_ONLY` is consulted only with
`MASKS_ONLY` false, giving the single 3D dataset with `[1]`; and in
single-source mode the mixer's derived weight is `1` for any non-empty
dataset. -/
theorem masks_only_precedence :
    (∀ cfg : Config, cfg.DATASET.MASKS_ONLY = true →
      selectTrainDatasets cfg = ([.segm2D], [1])) ∧
    (∀ (cfg : Config) (b : Bool), cfg.DATASET.MASKS_ONLY = true →
      selectTrainDatasets
        { cfg with DATASET := { cfg.DATASET with LIDAR_DATA_ONLY := b } } =
        selectTrainDatasets cfg) ∧
    (∀ cfg : Config, cfg.DATASET.MASKS_ONLY = false →
      cfg.DATASET.LIDAR_DATA_ONLY = true →
      selectTrainDatasets cfg = ([.segm3D], [1])) ∧
    (∀ L : Nat, 0 < L →
      mixer [L] [1] =
        .ok { dataset_samples_list := [(L : Int)],
              num_samples := (L : Int), weights := [1] }) := by
  refine ⟨?_, ?_, ?_, ?_⟩
  · intro cfg h
    simp [selectTrainDatasets, h]
  · intro cfg b h
    simp [selectTrainDatasets, h]
  · intro cfg h1 h2
    simp [selectTrainDatasets, h1, h2]
  · intro L hL
    have h1 : collectSamples [L] [1] = .ok [(L : Int)] := by
      have h2 : pyInt ((L : ℚ)) = (L : Int) := by
        rw [pyInt_of_nonneg (by positivity), Int.floor_natCast]
      simp [collectSamples, h2]
    have hne : (L : ℚ) ≠ 0 := Nat.cast_ne_zero.mpr hL.ne'
    simp [mixer, h1, div_self hne]

/-- C9 witness. -/
theorem masks_only_precedence_witness :
    selectTrainDatasets
      { cfg_waymo with DATASET :=
          { cfg_waymo.DATASET with MASKS_ONLY := true, LIDAR_DATA_ONLY := true } } =
      ([.segm2D], [1]) ∧
    mixer [7] [1] =
      .ok { dataset_samples_list := [7], num_samples := 7,
            weights := [1] } :=
  ⟨masks_only_precedence.1
      { cfg_waymo with DATASET :=
          { cfg_waymo.DATASET with MASKS_ONLY := true, LIDAR_DATA_ONLY := true } }
      rfl,
   masks_only_precedence.2.2.2 7 (by decide)⟩

/-- C10: when `END_EPOCH ≤ BEGIN_EPOCH` the epoch loop body never runs — no
training pass, no validation, no epoch-tagged checkpoint — yet the trace
still consists of the single `final_state` save of the model parameters. -/
theorem empty_epoch_loop_still_saves_final :
    ∀ (cfg : Config) (mp : Int → ModelParams) (os : Int → OptimState),
      cfg.TRAIN.END_EPOCH ≤ cfg.TRAIN.BEGIN_EPOCH →
      trainTrace cfg mp os =
        [.finalStateSave (mp cfg.TRAIN.END_EPOCH)] := by
  intro cfg mp os h
  simp [trainTrace, epochRange_eq_nil h]

/-- C10 witness. -/
theorem empty_epoch_loop_still_saves_final_witness :
    trainTrace
      { cfg_waymo with TRAIN := { cfg_waymo.TRAIN with END_EPOCH := 0 } }
      (fun _ => ⟨[]⟩) (fun _ => ⟨[]⟩) = [.finalStateSave ⟨[]⟩] :=
  empty_epoch_loop_still_saves_final
    { cfg_waymo with TRAIN := { cfg_waymo.TRAIN with END_EPOCH := 0 } }
    (fun _ => ⟨[]⟩) (fun _ => ⟨[]⟩) (by decide)

end LidarAnnot
